import Mathlib

/-!
Shallow embedding of the docker-exporter collection pipeline.

Sources embedded:
* src/internal/collector/collector.go — `Collector.Collect`,
  `Collector.collectContainerMetrics`, `Collector.collectEngineMetrics`,
  `stateToCode`, `healthToCode`.
* src/unnamed/part_001 (package docker) — `ContainerInfo`, `ContainerStats`,
  `NetworkStats`, `EngineInfo`, `Client.ListContainers`,
  `Client.GetContainerStats` (the pure post-parse computation),
  `calculateCPUPercent`.

Modelling conventions:
* Go `float64` values are modelled by `ℚ`.  Every numeric scenario in the
  claims is exact in both semantics (e.g. 2e8/1e9*2*100 rounds to exactly
  40.0 in binary64 as well), so no rounding model is needed.
* Go `uint64` values are modelled by `Nat` together with explicit wrapping
  subtraction `sub64` (mod 2^64) where the source subtracts unsigned
  counters; bounds `< 2^64` appear as hypotheses where they matter.
* Go `time.Time` is modelled as `Option Int` (Unix seconds):
  `none` is the zero value (`IsZero`), `some t` a concrete instant.
  `time.Since(t)` at instant `now` is `now - t`; the instant of each
  `time.Since` call is supplied explicitly (`nows`), because the source
  re-reads the clock at each emission rather than reusing the scrape start.
* A Go call returning `(T, error)` where the caller only branches on
  `err != nil` is modelled as `Option T` (`none` = non-nil error; the error
  value itself is only logged by the source).
* Go map iteration order is not observable in any claim; maps arriving in
  API responses are modelled as association lists in arrival order, and the
  `statsMap` built from the stats channel is modelled by the same
  last-write-wins fold the source performs (`statsMap[stats.ID] = stats`).
-/

namespace DockerExporter

/-- 2^64, the modulus of Go uint64 arithmetic. -/
def U64 : Nat := 18446744073709551616

/-- Go uint64 subtraction `a - b` (wraps modulo 2^64); faithful for a b < 2^64. -/
def sub64 (a b : Nat) : Nat := (a + U64 - b) % U64

/-- docker.ContainerInfo (src/unnamed/part_001 lines 17-30).
Timestamps are `Option Int`: `none` models the Go zero `time.Time`. -/
structure ContainerInfo where
  id : String
  name : String
  image : String
  state : String
  health : String
  created : Option Int
  started : Option Int
  finished : Option Int
  restartCount : Int
  exitCode : Int
  oomKilled : Bool
  running : Bool
  deriving DecidableEq, Repr

/-- docker.NetworkStats (src/unnamed/part_001 lines 61-64). -/
structure NetworkStats where
  rxBytes : Nat
  txBytes : Nat
  deriving DecidableEq, Repr

/-- docker.ContainerStats (src/unnamed/part_001 lines 33-58).
`networks` is the per-interface map, as an association list. -/
structure ContainerStats where
  id : String
  name : String
  cpuPercent : ℚ
  cpuUsageTotal : Nat
  cpuSystem : Nat
  memoryUsage : Nat
  memoryLimit : Nat
  memoryPercent : ℚ
  networkRxBytes : Nat
  networkTxBytes : Nat
  networks : List (String × NetworkStats)
  blockRead : Nat
  blockWrite : Nat
  pidsCount : Nat
  deriving DecidableEq, Repr

/-- docker.EngineInfo (src/unnamed/part_001 lines 67-78). -/
structure EngineInfo where
  version : String
  os : String
  arch : String
  kernelVersion : String
  containersRunning : Int
  containersPaused : Int
  containersStopped : Int
  images : Int
  ncpu : Int
  memTotal : Int
  deriving DecidableEq, Repr

/-- The CPUUsage part of the runtime stats response used by the source:
TotalUsage and PercpuUsage. -/
structure CPUUsage where
  totalUsage : Nat
  percpuUsage : List Nat
  deriving DecidableEq, Repr

/-- The CPUStats part of the runtime stats response used by the source:
CPUUsage, SystemUsage, OnlineCPUs. -/
structure CPUStats where
  cpuUsage : CPUUsage
  systemUsage : Nat
  onlineCPUs : Nat
  deriving DecidableEq, Repr

/-- The MemoryStats part of the runtime stats response used by the source. -/
structure MemoryStats where
  usage : Nat
  limit : Nat
  deriving DecidableEq, Repr

/-- One entry of BlkioStats.IoServiceBytesRecursive. -/
structure BlkioEntry where
  op : String
  value : Nat
  deriving DecidableEq, Repr

/-- Raw per-interface counters as they arrive in the stats response. -/
structure RawNetwork where
  rxBytes : Nat
  txBytes : Nat
  deriving DecidableEq, Repr

/-- The fields of container.StatsResponse that GetContainerStats and
calculateCPUPercent read. -/
structure StatsResponse where
  cpuStats : CPUStats
  preCPUStats : CPUStats
  memoryStats : MemoryStats
  networks : List (String × RawNetwork)
  ioServiceBytesRecursive : List BlkioEntry
  pidsCurrent : Nat
  deriving DecidableEq, Repr

/-- calculateCPUPercent (src/unnamed/part_001 lines 269-284).
The source subtracts uint64 counters before converting to float64, so the
deltas wrap modulo 2^64 (`sub64`); the `> 0` guards are on the wrapped
values. -/
def calculateCPUPercent (stats : StatsResponse) : ℚ :=
  let cpuDelta : ℚ :=
    (sub64 stats.cpuStats.cpuUsage.totalUsage stats.preCPUStats.cpuUsage.totalUsage : ℚ)
  let systemDelta : ℚ :=
    (sub64 stats.cpuStats.systemUsage stats.preCPUStats.systemUsage : ℚ)
  if systemDelta > 0 ∧ cpuDelta > 0 then
    let cpuCount0 : ℚ := (stats.cpuStats.onlineCPUs : ℚ)
    let cpuCount1 : ℚ :=
      if cpuCount0 = 0 then (stats.cpuStats.cpuUsage.percpuUsage.length : ℚ) else cpuCount0
    let cpuCount : ℚ := if cpuCount1 = 0 then 1 else cpuCount1
    (cpuDelta / systemDelta) * cpuCount * 100
  else 0

/-- The read/Read accumulation over IoServiceBytesRecursive
(src/unnamed/part_001 lines 222-229). -/
def blkioReadTotal (entries : List BlkioEntry) : Nat :=
  entries.foldl
    (fun acc e => if e.op = "read" ∨ e.op = "Read" then acc + e.value else acc) 0

/-- The write/Write accumulation over IoServiceBytesRecursive
(src/unnamed/part_001 lines 222-229). -/
def blkioWriteTotal (entries : List BlkioEntry) : Nat :=
  entries.foldl
    (fun acc e => if e.op = "write" ∨ e.op = "Write" then acc + e.value else acc) 0

/-- The pure computation of Client.GetContainerStats after the response body
is decoded (src/unnamed/part_001 lines 193-234).  `containerID.take 12`
models the Go slice `containerID[:12]`. -/
def computeStats (containerID name : String) (stats : StatsResponse) : ContainerStats :=
  { id := containerID.take 12
    name := name
    cpuPercent := calculateCPUPercent stats
    cpuUsageTotal := stats.cpuStats.cpuUsage.totalUsage
    cpuSystem := stats.cpuStats.systemUsage
    memoryUsage := stats.memoryStats.usage
    memoryLimit := stats.memoryStats.limit
    memoryPercent :=
      if stats.memoryStats.limit > 0 then
        (stats.memoryStats.usage : ℚ) / (stats.memoryStats.limit : ℚ) * 100
      else 0
    networkRxBytes := (stats.networks.map (fun p => p.2.rxBytes)).sum
    networkTxBytes := (stats.networks.map (fun p => p.2.txBytes)).sum
    networks :=
      stats.networks.map (fun p => (p.1, { rxBytes := p.2.rxBytes, txBytes := p.2.txBytes }))
    blockRead := blkioReadTotal stats.ioServiceBytesRecursive
    blockWrite := blkioWriteTotal stats.ioServiceBytesRecursive
    pidsCount := stats.pidsCurrent }

/-- stateToCode (src/internal/collector/collector.go lines 496-513). -/
def stateToCode (state : String) : Int :=
  if state = "running" then 1
  else if state = "paused" then 2
  else if state = "restarting" then 3
  else if state = "exited" then 4
  else if state = "dead" then 5
  else if state = "created" then 6
  else 0

/-- healthToCode (src/internal/collector/collector.go lines 516-527). -/
def healthToCode (health : String) : Int :=
  if health = "healthy" then 1
  else if health = "unhealthy" then 0
  else if health = "starting" then 2
  else -1

/-- The metric data points passed to the channel in Collect.  One constructor
per prometheus.Desc of the Collector (collector.go lines 22-56), carrying the
label values and the numeric value.  Label/help text and the metric-name
prefixing are static and not value-relevant, so they are not repeated here. -/
inductive Metric
  | buildInfo (version goVersion : String)
  | containerInfo (id name image state : String)
  | containerState (id name : String) (value : Int)
  | containerUptime (id name : String) (value : Int)
  | containerCreated (id name : String) (value : Int)
  | containerStarted (id name : String) (value : Int)
  | containerRestartCount (id name : String) (value : Int)
  | containerHealthStatus (id name : String) (value : Int)
  | containerExitCode (id name : String) (value : Int)
  | containerOOMKilled (id name : String) (value : Int)
  | containerCPUPercent (id name : String) (value : ℚ)
  | containerCPUUsageSeconds (id name : String) (value : ℚ)
  | containerMemoryUsage (id name : String) (value : Nat)
  | containerMemoryLimit (id name : String) (value : Nat)
  | containerMemoryPercent (id name : String) (value : ℚ)
  | containerNetworkRxBytes (id name iface : String) (value : Nat)
  | containerNetworkTxBytes (id name iface : String) (value : Nat)
  | containerBlkioReadBytes (id name : String) (value : Nat)
  | containerBlkioWriteBytes (id name : String) (value : Nat)
  | engineInfo (version os arch kernel : String)
  | containersTotal (state : String) (value : Int)
  | imagesTotal (value : Int)
  | scrapeDuration (value : ℚ)
  deriving DecidableEq, Repr

/-- The uptime computation (collector.go lines 354-358): `time.Since` at the
instant `now` of this emission, only when running with a nonzero Started. -/
def uptimeValue (cont : ContainerInfo) (now : Int) : Int :=
  if cont.running then
    match cont.started with
    | some t => now - t
    | none => 0
  else 0

/-- The conditional created-timestamp emission (collector.go lines 364-370). -/
def createdMetric (c : ContainerInfo) : List Metric :=
  match c.created with
  | some t => [Metric.containerCreated c.id c.name t]
  | none => []

/-- The conditional started-timestamp emission (collector.go lines 372-378). -/
def startedMetric (c : ContainerInfo) : List Metric :=
  match c.started with
  | some t => [Metric.containerStarted c.id c.name t]
  | none => []

/-- The per-interface network emission loop (collector.go lines 436-446). -/
def networkMetrics (c : ContainerInfo) (nets : List (String × NetworkStats)) : List Metric :=
  nets.flatMap (fun p =>
    [Metric.containerNetworkRxBytes c.id c.name p.1 p.2.rxBytes,
     Metric.containerNetworkTxBytes c.id c.name p.1 p.2.txBytes])

/-- The resource-metric block (collector.go lines 409-457): emitted only when
`statsMap` holds a sample for this container. -/
def resourceMetrics (c : ContainerInfo) : Option ContainerStats → List Metric
  | none => []
  | some s =>
    [Metric.containerCPUPercent c.id c.name s.cpuPercent,
     Metric.containerCPUUsageSeconds c.id c.name ((s.cpuUsageTotal : ℚ) / 1000000000),
     Metric.containerMemoryUsage c.id c.name s.memoryUsage,
     Metric.containerMemoryLimit c.id c.name s.memoryLimit,
     Metric.containerMemoryPercent c.id c.name s.memoryPercent]
    ++ networkMetrics c s.networks
    ++ [Metric.containerBlkioReadBytes c.id c.name s.blockRead,
        Metric.containerBlkioWriteBytes c.id c.name s.blockWrite]

/-- One iteration of the emission loop body (collector.go lines 340-458)
for container `c`, given its `statsMap` lookup and the clock instant of its
`time.Since` call. -/
def emitOne (c : ContainerInfo) (stats : Option ContainerStats) (now : Int) : List Metric :=
  [Metric.containerInfo c.id c.name c.image c.state,
   Metric.containerState c.id c.name (stateToCode c.state),
   Metric.containerUptime c.id c.name (uptimeValue c now)]
  ++ createdMetric c
  ++ startedMetric c
  ++ [Metric.containerRestartCount c.id c.name c.restartCount,
      Metric.containerHealthStatus c.id c.name (healthToCode c.health),
      Metric.containerExitCode c.id c.name c.exitCode,
      Metric.containerOOMKilled c.id c.name (if c.oomKilled then 1 else 0)]
  ++ resourceMetrics c stats

/-- Lookup in the Go map `statsMap` modelled as head-first search of the
association list (the list is built head-insert, so head-first search gives
last-write-wins, exactly the Go map assignment semantics). -/
def mapLookup (m : List (String × ContainerStats)) (k : String) : Option ContainerStats :=
  (m.find? (fun p => p.1 == k)).map (fun p => p.2)

/-- `statsMap[stats.ID] = stats` for each sample drained from the channel
(collector.go lines 334-337). -/
def buildStatsMap (results : List ContainerStats) : List (String × ContainerStats) :=
  results.foldl (fun m s => (s.id, s) :: m) []

/-- The fan-out (collector.go lines 294-330): one fetch per running
container; a fetch that fails (`none`) sends nothing to the channel.
Arrival order on the channel is scheduler-dependent; it is modelled as
listing order, which is observationally equivalent for the map contents
whenever sample ids are distinct. -/
def fetchResults (containers : List ContainerInfo)
    (fetch : ContainerInfo → Option ContainerStats) : List ContainerStats :=
  (containers.filter (fun c => c.running)).filterMap fetch

/-- The emission loop over all listed containers, threading the index `i`
so that the i-th container's `time.Since` reads the clock at `nows i`. -/
def emitFrom (statsMap : List (String × ContainerStats)) (nows : Nat → Int) :
    Nat → List ContainerInfo → List Metric
  | _, [] => []
  | i, c :: rest =>
      emitOne c (mapLookup statsMap c.id) (nows i) ++ emitFrom statsMap nows (i + 1) rest

/-- collectContainerMetrics (collector.go lines 261-459).  `listing = none`
models a ListContainers error: the function returns with no emission.  The
source's early return on an empty list emits nothing, exactly as the loop
over `[]` does. -/
def collectContainerMetrics (listing : Option (List ContainerInfo))
    (fetch : ContainerInfo → Option ContainerStats) (nows : Nat → Int) : List Metric :=
  match listing with
  | none => []
  | some containers =>
      emitFrom (buildStatsMap (fetchResults containers fetch)) nows 0 containers

/-- collectEngineMetrics (collector.go lines 462-493): nothing on error,
else the engine-info gauge, three per-state totals and the image total. -/
def collectEngineMetrics : Option EngineInfo → List Metric
  | none => []
  | some info =>
    [Metric.engineInfo info.version info.os info.arch info.kernelVersion,
     Metric.containersTotal "running" info.containersRunning,
     Metric.containersTotal "paused" info.containersPaused,
     Metric.containersTotal "stopped" info.containersStopped,
     Metric.imagesTotal info.images]

/-- Collect (collector.go lines 228-258): build-info first, then container
metrics, then engine metrics, then the scrape duration.  Always returns a
metric list — the fallible calls are consumed as values, never rethrown. -/
def Collect (version goVersion : String) (listing : Option (List ContainerInfo))
    (fetch : ContainerInfo → Option ContainerStats) (nows : Nat → Int)
    (engine : Option EngineInfo) (duration : ℚ) : List Metric :=
  Metric.buildInfo version goVersion
    :: (collectContainerMetrics listing fetch nows
        ++ collectEngineMetrics engine
        ++ [Metric.scrapeDuration duration])

/-- The per-container inspect loop of Client.ListContainers
(src/unnamed/part_001 lines 124-131): an inspect failure drops that
container (`continue`); a success appends it. -/
def inspectLoop (inspect : String → Option ContainerInfo) : List String → List ContainerInfo
  | [] => []
  | cid :: rest =>
      match inspect cid with
      | none => inspectLoop inspect rest
      | some info => info :: inspectLoop inspect rest

/-- Client.ListContainers (src/unnamed/part_001 lines 118-134): a failed
ContainerList call is the only error surfaced; the raw containers are then
inspected one by one.  The raw list entries are reduced to their ids — the
only field the source reads. -/
def ListContainers (listResult : Option (List String))
    (inspect : String → Option ContainerInfo) : Option (List ContainerInfo) :=
  match listResult with
  | none => none
  | some ids => some (inspectLoop inspect ids)

/-! Spec-side definitions (for refinement comparisons) and concrete inputs. -/

/-- Modelled from the spec (§4.2): the online-CPU fallback chain — the
reported online-CPU count, else the number of per-core counters, else 1. -/
def specCPUCount (onlineCPUs percpuLen : Nat) : ℚ :=
  if onlineCPUs ≠ 0 then onlineCPUs
  else if percpuLen ≠ 0 then percpuLen
  else 1

/-- Modelled from the spec (§4.2): CPU percent is
`(usageDelta / systemDelta) * onlineCPUs * 100` when both deltas are
strictly positive, else 0.  The deltas here are the mathematical
(integer) differences of the cumulative counters, as the spec reads. -/
def specCPUPercent (usageDelta systemDelta : ℤ) (onlineCPUs percpuLen : Nat) : ℚ :=
  if 0 < usageDelta ∧ 0 < systemDelta then
    ((usageDelta : ℚ) / (systemDelta : ℚ)) * specCPUCount onlineCPUs percpuLen * 100
  else 0

/-- The concrete scenario of the spec: totalUsage delta 200000000 ns,
systemUsage delta 1000000000, OnlineCPUs 2. -/
def cpu40 : StatsResponse :=
  { cpuStats := { cpuUsage := { totalUsage := 200000000, percpuUsage := [] },
                  systemUsage := 1000000000, onlineCPUs := 2 }
    preCPUStats := { cpuUsage := { totalUsage := 0, percpuUsage := [] },
                     systemUsage := 0, onlineCPUs := 0 }
    memoryStats := { usage := 0, limit := 0 }
    networks := []
    ioServiceBytesRecursive := []
    pidsCurrent := 0 }

/-- A counter reset: the current TotalUsage (0) is below the previous one
(1), so the uint64 subtraction in the source wraps. -/
def cpuReset : StatsResponse :=
  { cpuStats := { cpuUsage := { totalUsage := 0, percpuUsage := [] },
                  systemUsage := 2, onlineCPUs := 1 }
    preCPUStats := { cpuUsage := { totalUsage := 1, percpuUsage := [] },
                     systemUsage := 1, onlineCPUs := 0 }
    memoryStats := { usage := 0, limit := 0 }
    networks := []
    ioServiceBytesRecursive := []
    pidsCurrent := 0 }

/-- The concrete memory scenario of the spec: usage 512 MiB, limit 1024 MiB. -/
def memStats512 : StatsResponse :=
  { cpuStats := { cpuUsage := { totalUsage := 0, percpuUsage := [] },
                  systemUsage := 0, onlineCPUs := 0 }
    preCPUStats := { cpuUsage := { totalUsage := 0, percpuUsage := [] },
                     systemUsage := 0, onlineCPUs := 0 }
    memoryStats := { usage := 536870912, limit := 1073741824 }
    networks := []
    ioServiceBytesRecursive := []
    pidsCurrent := 0 }

/-- A sample with memory limit 0 ("unlimited"). -/
def memStats0 : StatsResponse :=
  { cpuStats := { cpuUsage := { totalUsage := 0, percpuUsage := [] },
                  systemUsage := 0, onlineCPUs := 0 }
    preCPUStats := { cpuUsage := { totalUsage := 0, percpuUsage := [] },
                     systemUsage := 0, onlineCPUs := 0 }
    memoryStats := { usage := 42, limit := 0 }
    networks := []
    ioServiceBytesRecursive := []
    pidsCurrent := 0 }

/-! Metric classifiers used to state omission properties. -/

/-- True exactly for the resource-block metrics (CPU, memory, network,
block-IO) carrying the given container id label. -/
def isResourceFor (a : String) : Metric → Bool
  | Metric.containerCPUPercent i _ _ => i == a
  | Metric.containerCPUUsageSeconds i _ _ => i == a
  | Metric.containerMemoryUsage i _ _ => i == a
  | Metric.containerMemoryLimit i _ _ => i == a
  | Metric.containerMemoryPercent i _ _ => i == a
  | Metric.containerNetworkRxBytes i _ _ _ => i == a
  | Metric.containerNetworkTxBytes i _ _ _ => i == a
  | Metric.containerBlkioReadBytes i _ _ => i == a
  | Metric.containerBlkioWriteBytes i _ _ => i == a
  | _ => false

/-- True exactly for the CPU-percent metric with the given id label. -/
def isCPUPercentFor (a : String) : Metric → Bool
  | Metric.containerCPUPercent i _ _ => i == a
  | _ => false

/-- True for every per-container metric (any id). -/
def isContainerScoped : Metric → Bool
  | Metric.containerInfo _ _ _ _ => true
  | Metric.containerState _ _ _ => true
  | Metric.containerUptime _ _ _ => true
  | Metric.containerCreated _ _ _ => true
  | Metric.containerStarted _ _ _ => true
  | Metric.containerRestartCount _ _ _ => true
  | Metric.containerHealthStatus _ _ _ => true
  | Metric.containerExitCode _ _ _ => true
  | Metric.containerOOMKilled _ _ _ => true
  | Metric.containerCPUPercent _ _ _ => true
  | Metric.containerCPUUsageSeconds _ _ _ => true
  | Metric.containerMemoryUsage _ _ _ => true
  | Metric.containerMemoryLimit _ _ _ => true
  | Metric.containerMemoryPercent _ _ _ => true
  | Metric.containerNetworkRxBytes _ _ _ _ => true
  | Metric.containerNetworkTxBytes _ _ _ _ => true
  | Metric.containerBlkioReadBytes _ _ _ => true
  | Metric.containerBlkioWriteBytes _ _ _ => true
  | _ => false

/-- True only for the build-info metric. -/
def isBuildInfo : Metric → Bool
  | Metric.buildInfo _ _ => true
  | _ => false

/-- True only for the scrape-duration metric. -/
def isScrapeDuration : Metric → Bool
  | Metric.scrapeDuration _ => true
  | _ => false

/-- True only for the created-timestamp metric (any labels). -/
def isCreatedMetric : Metric → Bool
  | Metric.containerCreated _ _ _ => true
  | _ => false

/-! Concrete scrape scenarios used by witnesses and counterexamples. -/

/-- A running container with the given id and name. -/
def runningCont (i n : String) : ContainerInfo :=
  { id := i, name := n, image := "img", state := "running", health := "none",
    created := some 10, started := some 20, finished := none,
    restartCount := 0, exitCode := 0, oomKilled := false, running := true }

/-- A fixed stats sample with the given id and name. -/
def statsFor (i n : String) : ContainerStats :=
  { id := i, name := n, cpuPercent := 5, cpuUsageTotal := 1000000000, cpuSystem := 0,
    memoryUsage := 100, memoryLimit := 200, memoryPercent := 50,
    networkRxBytes := 0, networkTxBytes := 0, networks := [],
    blockRead := 0, blockWrite := 0, pidsCount := 1 }

/-- Three running containers, matching the spec's three-container scenario. -/
def containersEx3 : List ContainerInfo :=
  [runningCont "c1" "n1", runningCont "c2" "n2", runningCont "c3" "n3"]

/-- A fetch where the middle container's stats call fails (times out)
and the two others succeed. -/
def fetchEx3 : ContainerInfo → Option ContainerStats :=
  fun c => if c.id = "c2" then none else some (statsFor c.id c.name)

/-- The metrics of the three-container scenario. -/
def outEx3 : List Metric := collectContainerMetrics (some containersEx3) fetchEx3 (fun _ => 0)

/-- A running container whose Created and Started times are the zero value. -/
def contNoCreated : ContainerInfo :=
  { id := "cA", name := "nA", image := "img", state := "running", health := "none",
    created := none, started := none, finished := none,
    restartCount := 0, exitCode := 0, oomKilled := false, running := true }

/-- The metrics of a scrape listing only `contNoCreated`. -/
def outNoTs : List Metric :=
  collectContainerMetrics (some [contNoCreated]) (fun _ => none) (fun _ => 0)

/-- A running container whose StartedAt (100) lies after the clock instant
(50) at which its uptime is computed. -/
def contLate : ContainerInfo :=
  { id := "c9", name := "n9", image := "img", state := "running", health := "none",
    created := some 90, started := some 100, finished := none,
    restartCount := 0, exitCode := 0, oomKilled := false, running := true }

/-- The metrics of a scrape listing only `contLate`, clock at 50. -/
def outLate : List Metric :=
  collectContainerMetrics (some [contLate]) (fun _ => none) (fun _ => 50)

/-- A concrete engine snapshot. -/
def engineEx : EngineInfo :=
  { version := "24.0", os := "linux", arch := "amd64", kernelVersion := "6.1",
    containersRunning := 1, containersPaused := 0, containersStopped := 2,
    images := 5, ncpu := 4, memTotal := 1024 }

/-- An inspect that fails for the id "bad" and succeeds elsewhere. -/
def inspectEx : String → Option ContainerInfo :=
  fun cid => if cid = "bad" then none else some (runningCont cid cid)

/-! Helper lemmas. -/

lemma sub64_of_le {a b : Nat} (h : b ≤ a) (hb : a < U64) : sub64 a b = a - b := by
  unfold sub64 U64 at *
  omega

lemma calculateCPUPercent_nonneg (st : StatsResponse) : 0 ≤ calculateCPUPercent st := by
  simp only [calculateCPUPercent]
  split
  · rename_i h
    obtain ⟨hs, hc⟩ := h
    refine mul_nonneg (mul_nonneg (div_nonneg ?_ ?_) ?_) (by norm_num)
    · positivity
    · positivity
    · split
      · split
        · norm_num
        · positivity
      · positivity
  · exact le_refl _

lemma calculateCPUPercent_eq_spec (st : StatsResponse)
    (hu : st.preCPUStats.cpuUsage.totalUsage ≤ st.cpuStats.cpuUsage.totalUsage)
    (hub : st.cpuStats.cpuUsage.totalUsage < U64)
    (hs : st.preCPUStats.systemUsage ≤ st.cpuStats.systemUsage)
    (hsb : st.cpuStats.systemUsage < U64) :
    calculateCPUPercent st =
      specCPUPercent
        ((st.cpuStats.cpuUsage.totalUsage : ℤ) - (st.preCPUStats.cpuUsage.totalUsage : ℤ))
        ((st.cpuStats.systemUsage : ℤ) - (st.preCPUStats.systemUsage : ℤ))
        st.cpuStats.onlineCPUs st.cpuStats.cpuUsage.percpuUsage.length := by
  obtain ⟨⟨⟨a, pl⟩, c, o⟩, ⟨⟨b, plp⟩, d, op⟩, mem, nets, iosb, pids⟩ := st
  simp only [calculateCPUPercent, specCPUPercent] at *
  rw [sub64_of_le hu hub, sub64_of_le hs hsb, Nat.cast_sub hu, Nat.cast_sub hs]
  have hguard : ((c : ℚ) - (d : ℚ) > 0 ∧ (a : ℚ) - (b : ℚ) > 0) =
      (0 < (a : ℤ) - (b : ℤ) ∧ 0 < (c : ℤ) - (d : ℤ)) := by
    apply propext
    constructor
    · rintro ⟨h1, h2⟩
      have hb : (b : ℚ) < a := by linarith
      have hd : (d : ℚ) < c := by linarith
      have hb2 : b < a := by exact_mod_cast hb
      have hd2 : d < c := by exact_mod_cast hd
      omega
    · rintro ⟨h1, h2⟩
      have hb2 : b < a := by omega
      have hd2 : d < c := by omega
      have hb : (b : ℚ) < a := by exact_mod_cast hb2
      have hd : (d : ℚ) < c := by exact_mod_cast hd2
      exact ⟨by linarith, by linarith⟩
  have hcount :
      (if (if (o : ℚ) = 0 then (pl.length : ℚ) else (o : ℚ)) = 0 then 1
       else (if (o : ℚ) = 0 then (pl.length : ℚ) else (o : ℚ))) =
      specCPUCount o pl.length := by
    simp only [specCPUCount, Nat.cast_eq_zero]
    by_cases ho : o = 0 <;> by_cases hl : pl.length = 0 <;> simp [ho, hl]
  simp only [hguard]
  by_cases H : 0 < (a : ℤ) - (b : ℤ) ∧ 0 < (c : ℤ) - (d : ℤ)
  · rw [if_pos H, if_pos H, hcount]
    push_cast
    ring
  · rw [if_neg H, if_neg H]

lemma inspectLoop_eq_filterMap (inspect : String → Option ContainerInfo)
    (ids : List String) : inspectLoop inspect ids = ids.filterMap inspect := by
  induction ids with
  | nil => rfl
  | cons cid rest ih =>
    simp only [inspectLoop, List.filterMap_cons]
    cases inspect cid <;> simp [ih]

/-! Claim theorems. -/

/-- C5: the lifecycle-state-to-code mapping is a total function on strings:
running maps to 1, paused to 2, restarting to 3, exited to 4, dead to 5,
created to 6, and every other input string to 0; every input maps to
exactly one of {0,1,2,3,4,5,6}. -/
theorem stateToCode_total :
    stateToCode "running" = 1 ∧ stateToCode "paused" = 2 ∧ stateToCode "restarting" = 3 ∧
    stateToCode "exited" = 4 ∧ stateToCode "dead" = 5 ∧ stateToCode "created" = 6 ∧
    (∀ s : String, s ≠ "running" → s ≠ "paused" → s ≠ "restarting" → s ≠ "exited" →
      s ≠ "dead" → s ≠ "created" → stateToCode s = 0) ∧
    (∀ s : String, stateToCode s = 0 ∨ stateToCode s = 1 ∨ stateToCode s = 2 ∨
      stateToCode s = 3 ∨ stateToCode s = 4 ∨ stateToCode s = 5 ∨ stateToCode s = 6) := by
  refine ⟨rfl, rfl, rfl, rfl, rfl, rfl, ?_, ?_⟩
  · intro s h1 h2 h3 h4 h5 h6
    simp [stateToCode, h1, h2, h3, h4, h5, h6]
  · intro s
    unfold stateToCode
    split_ifs <;> norm_num

/-- Witness for C5 at the concrete unrecognized state "bogus". -/
theorem stateToCode_total_witness : stateToCode "bogus" = 0 :=
  stateToCode_total.2.2.2.2.2.2.1 "bogus" (by decide) (by decide) (by decide)
    (by decide) (by decide) (by decide)

/-- C6: the health-status-to-code mapping is total: "healthy" maps to 1,
"unhealthy" to 0, "starting" to 2, and "none", the empty string, and any
other unreported value to -1. -/
theorem healthToCode_total :
    healthToCode "healthy" = 1 ∧ healthToCode "unhealthy" = 0 ∧
    healthToCode "starting" = 2 ∧ healthToCode "none" = -1 ∧ healthToCode "" = -1 ∧
    (∀ s : String, s ≠ "healthy" → s ≠ "unhealthy" → s ≠ "starting" →
      healthToCode s = -1) := by
  refine ⟨rfl, rfl, rfl, rfl, rfl, ?_⟩
  intro s h1 h2 h3
  simp [healthToCode, h1, h2, h3]

/-- Witness for C6 at the concrete unreported status "weird". -/
theorem healthToCode_total_witness : healthToCode "weird" = -1 :=
  healthToCode_total.2.2.2.2.2 "weird" (by decide) (by decide) (by decide)

/-- C7: for every stats sample, memory percent equals usage / limit * 100
when the memory limit is strictly greater than 0, and 0 when the limit is 0;
in particular usage = 512 MiB with limit = 1024 MiB yields exactly 50.0. -/
theorem memoryPercent_characterization :
    (∀ (cid nm : String) (st : StatsResponse),
      (computeStats cid nm st).memoryPercent =
        if 0 < st.memoryStats.limit then
          (st.memoryStats.usage : ℚ) / (st.memoryStats.limit : ℚ) * 100
        else 0) ∧
    (∀ (cid nm : String) (st : StatsResponse), st.memoryStats.limit = 0 →
      (computeStats cid nm st).memoryPercent = 0) ∧
    (computeStats "abcdef123456" "c" memStats512).memoryPercent = 50 := by
  refine ⟨?_, ?_, ?_⟩
  · intro cid nm st
    rfl
  · intro cid nm st h
    simp [computeStats, h]
  · norm_num [computeStats, memStats512]

/-- Witness for C7: the zero-limit branch at a concrete sample. -/
theorem memoryPercent_characterization_witness :
    (computeStats "abcdef123456" "c" memStats0).memoryPercent = 0 :=
  memoryPercent_characterization.2.1 "abcdef123456" "c" memStats0 rfl

/-- C3 counterexample: on a counter reset (current TotalUsage 0, previous 1)
the mathematical usage delta is negative, so the claim demands 0; but the
source subtracts uint64 values, the delta wraps to 2^64 - 1, and the
computed percent is a huge positive number, not 0. -/
theorem cpu_percent_reset_counterexample :
    (cpuReset.cpuStats.cpuUsage.totalUsage : ℤ) -
        (cpuReset.preCPUStats.cpuUsage.totalUsage : ℤ) < 0 ∧
    specCPUPercent
      ((cpuReset.cpuStats.cpuUsage.totalUsage : ℤ) -
        (cpuReset.preCPUStats.cpuUsage.totalUsage : ℤ))
      ((cpuReset.cpuStats.systemUsage : ℤ) - (cpuReset.preCPUStats.systemUsage : ℤ))
      cpuReset.cpuStats.onlineCPUs cpuReset.cpuStats.cpuUsage.percpuUsage.length = 0 ∧
    calculateCPUPercent cpuReset = 1844674407370955161500 ∧
    calculateCPUPercent cpuReset ≠ 0 := by
  refine ⟨by decide, ?_, ?_, ?_⟩
  · norm_num [specCPUPercent, cpuReset]
  · norm_num [calculateCPUPercent, cpuReset, sub64, U64]
  · norm_num [calculateCPUPercent, cpuReset, sub64, U64]

/-- C3 (amended): the computed CPU percent is never negative (and, being a
rational, never NaN); whenever the cumulative counters did not decrease
between the two samples (no counter reset) it equals the spec formula
`(usageDelta / systemDelta) * onlineCPUs * 100` when both deltas are
strictly positive and 0 otherwise, with OnlineCPUs falling back to the
per-core counter count and then to 1; and the concrete scenario
(usage delta 200000000 ns, system delta 1000000000, OnlineCPUs 2) yields
exactly 40.0.  On a counter reset the unsigned subtraction wraps instead
of yielding 0 (see the counterexample). -/
theorem cpu_percent_characterization :
    (∀ st : StatsResponse, 0 ≤ calculateCPUPercent st) ∧
    (∀ st : StatsResponse,
      st.preCPUStats.cpuUsage.totalUsage ≤ st.cpuStats.cpuUsage.totalUsage →
      st.cpuStats.cpuUsage.totalUsage < U64 →
      st.preCPUStats.systemUsage ≤ st.cpuStats.systemUsage →
      st.cpuStats.systemUsage < U64 →
      calculateCPUPercent st =
        specCPUPercent
          ((st.cpuStats.cpuUsage.totalUsage : ℤ) -
            (st.preCPUStats.cpuUsage.totalUsage : ℤ))
          ((st.cpuStats.systemUsage : ℤ) - (st.preCPUStats.systemUsage : ℤ))
          st.cpuStats.onlineCPUs st.cpuStats.cpuUsage.percpuUsage.length) ∧
    calculateCPUPercent cpu40 = 40 := by
  refine ⟨calculateCPUPercent_nonneg, ?_, ?_⟩
  · intro st h1 h2 h3 h4
    exact calculateCPUPercent_eq_spec st h1 h2 h3 h4
  · norm_num [calculateCPUPercent, cpu40, sub64, U64]

/-- Witness for C3 (amended), applied at the concrete 40.0 scenario. -/
theorem cpu_percent_characterization_witness :
    calculateCPUPercent cpu40 =
      specCPUPercent
        ((cpu40.cpuStats.cpuUsage.totalUsage : ℤ) -
          (cpu40.preCPUStats.cpuUsage.totalUsage : ℤ))
        ((cpu40.cpuStats.systemUsage : ℤ) - (cpu40.preCPUStats.systemUsage : ℤ))
        cpu40.cpuStats.onlineCPUs cpu40.cpuStats.cpuUsage.percpuUsage.length :=
  cpu_percent_characterization.2.1 cpu40 (by decide) (by decide) (by decide) (by decide)

/-- C8: ListContainers returns exactly the containers whose detail lookup
(inspect) succeeded: the call itself still succeeds, a failed inspect only
drops that container, and an info is in the result precisely when some
listed id inspects to it. -/
theorem listContainers_drops_failed_inspect :
    ∀ (ids : List String) (inspect : String → Option ContainerInfo),
      ListContainers (some ids) inspect = some (ids.filterMap inspect) ∧
      (∀ info : ContainerInfo,
        info ∈ ids.filterMap inspect ↔ ∃ cid ∈ ids, inspect cid = some info) := by
  intro ids inspect
  constructor
  · simp [ListContainers, inspectLoop_eq_filterMap]
  · intro info
    simp [List.mem_filterMap]

lemma buildStatsMap_eq (results : List ContainerStats) :
    buildStatsMap results = (results.map (fun s => (s.id, s))).reverse := by
  have h : ∀ (l : List ContainerStats) (acc : List (String × ContainerStats)),
      l.foldl (fun m s => (s.id, s) :: m) acc = (l.map (fun s => (s.id, s))).reverse ++ acc := by
    intro l
    induction l with
    | nil => intro acc; simp
    | cons s rest ih =>
      intro acc
      simp only [List.foldl_cons, List.map_cons, List.reverse_cons, ih]
      simp
  simpa using h results []

lemma find?_pair_reverse (l : List ContainerStats)
    (hnd : (l.map (fun s => s.id)).Nodup) (k : String) :
    ((l.map (fun s => (s.id, s))).reverse).find? (fun p => p.1 == k) =
      (l.find? (fun s => s.id == k)).map (fun s => (s.id, s)) := by
  induction l with
  | nil => rfl
  | cons s rest ih =>
    simp only [List.map_cons, List.nodup_cons, List.mem_map] at hnd
    obtain ⟨hs, hnd2⟩ := hnd
    simp only [List.map_cons, List.reverse_cons, List.find?_append, ih hnd2, List.find?_cons]
    by_cases hk : s.id = k
    · have hrest : rest.find? (fun s => s.id == k) = none := by
        rw [List.find?_eq_none]
        intro t ht hp
        apply hs
        refine ⟨t, ht, ?_⟩
        have : t.id = k := by simpa using hp
        rw [this, hk]
      simp [hrest, hk]
    · have hbeq : (s.id == k) = false := by simpa using hk
      rw [hbeq]
      cases hfind : rest.find? (fun s => s.id == k) with
      | none => simp [hbeq]
      | some t => simp [hbeq]

lemma mapLookup_buildStatsMap (results : List ContainerStats)
    (hnd : (results.map (fun s => s.id)).Nodup) (k : String) :
    mapLookup (buildStatsMap results) k = results.find? (fun s => s.id == k) := by
  rw [mapLookup, buildStatsMap_eq, find?_pair_reverse results hnd k]
  cases results.find? (fun s => s.id == k) <;> rfl

lemma mem_fetchResults_id (containers : List ContainerInfo)
    (fetch : ContainerInfo → Option ContainerStats)
    (hfid : ∀ c s, fetch c = some s → s.id = c.id)
    {s : ContainerStats} (hs : s ∈ fetchResults containers fetch) :
    ∃ c ∈ containers, c.running = true ∧ fetch c = some s ∧ s.id = c.id := by
  simp only [fetchResults, List.mem_filterMap, List.mem_filter] at hs
  obtain ⟨c, ⟨hc, hrun⟩, hf⟩ := hs
  exact ⟨c, hc, by simpa using hrun, hf, hfid c s hf⟩

lemma fetchResults_ids_sublist (containers : List ContainerInfo)
    (fetch : ContainerInfo → Option ContainerStats)
    (hfid : ∀ c s, fetch c = some s → s.id = c.id) :
    ((fetchResults containers fetch).map (fun s => s.id)).Sublist
      (containers.map (fun c => c.id)) := by
  induction containers with
  | nil => simp [fetchResults]
  | cons d rest ih =>
    simp only [fetchResults, List.map_cons] at *
    by_cases hd : d.running = true
    · rw [List.filter_cons_of_pos (by simpa using hd)]
      cases hfd : fetch d with
      | none =>
        simp only [List.filterMap_cons, hfd]
        exact (ih).cons d.id
      | some s =>
        simp only [List.filterMap_cons, hfd, List.map_cons]
        rw [hfid d s hfd]
        exact (ih).cons₂ d.id
    · rw [List.filter_cons_of_neg (by simpa using hd)]
      exact (ih).cons d.id

lemma fetchResults_ids_nodup (containers : List ContainerInfo)
    (fetch : ContainerInfo → Option ContainerStats)
    (hfid : ∀ c s, fetch c = some s → s.id = c.id)
    (hnd : (containers.map (fun c => c.id)).Nodup) :
    ((fetchResults containers fetch).map (fun s => s.id)).Nodup :=
  (fetchResults_ids_sublist containers fetch hfid).nodup hnd

lemma find?_fetchResults (containers : List ContainerInfo)
    (fetch : ContainerInfo → Option ContainerStats)
    (hfid : ∀ c s, fetch c = some s → s.id = c.id)
    (hnd : (containers.map (fun c => c.id)).Nodup)
    (c : ContainerInfo) (hc : c ∈ containers) :
    (fetchResults containers fetch).find? (fun s => s.id == c.id) =
      if c.running = true then fetch c else none := by
  induction containers with
  | nil => cases hc
  | cons d rest ih =>
    simp only [List.map_cons, List.nodup_cons, List.mem_map] at hnd
    obtain ⟨hdid, hnd2⟩ := hnd
    rcases List.mem_cons.mp hc with hcd | hcr
    · subst hcd
      have hnone : ∀ (l : List ContainerStats),
          (∀ s ∈ l, ∃ e ∈ rest, s.id = e.id) → l.find? (fun s => s.id == c.id) = none := by
        intro l hl
        rw [List.find?_eq_none]
        intro s hs hp
        obtain ⟨e, he, hse⟩ := hl s hs
        apply hdid
        refine ⟨e, he, ?_⟩
        have : s.id = c.id := by simpa using hp
        rw [← hse, this]
      have hrestnone : (fetchResults rest fetch).find? (fun s => s.id == c.id) = none := by
        apply hnone
        intro s hs
        obtain ⟨e, he, _, _, hid⟩ := mem_fetchResults_id rest fetch hfid hs
        exact ⟨e, he, hid⟩
      by_cases hd : c.running = true
      · rw [fetchResults, List.filter_cons_of_pos (by simpa using hd)]
        cases hfd : fetch c with
        | none =>
          simp only [List.filterMap_cons, hfd]
          rw [if_pos hd]
          exact hrestnone
        | some s =>
          simp only [List.filterMap_cons, hfd]
          rw [List.find?_cons]
          have hbeq : (s.id == c.id) = true := by simp [hfid c s hfd]
          rw [hbeq, if_pos hd]
      · rw [fetchResults, List.filter_cons_of_neg (by simpa using hd)]
        rw [if_neg hd]
        exact hrestnone
    · have step : (fetchResults (d :: rest) fetch).find? (fun s => s.id == c.id) =
          (fetchResults rest fetch).find? (fun s => s.id == c.id) := by
        by_cases hd : d.running = true
        · rw [fetchResults, List.filter_cons_of_pos (by simpa using hd)]
          cases hfd : fetch d with
          | none => simp only [List.filterMap_cons, hfd]; rfl
          | some s =>
            simp only [List.filterMap_cons, hfd]
            rw [List.find?_cons]
            have hsid : s.id = d.id := hfid d s hfd
            have hcid : c.id ≠ d.id := by
              intro heq
              exact hdid ⟨c, hcr, heq⟩
            have hbeq2 : (s.id == c.id) = false := by
              simp only [beq_eq_false_iff_ne, ne_eq, hsid]
              intro h
              exact hcid h.symm
            rw [hbeq2]
            rfl
        · rw [fetchResults, List.filter_cons_of_neg (by simpa using hd)]
          rfl
      rw [step]
      exact ih hnd2 hcr

lemma lookup_stats (containers : List ContainerInfo)
    (fetch : ContainerInfo → Option ContainerStats)
    (hfid : ∀ c s, fetch c = some s → s.id = c.id)
    (hnd : (containers.map (fun c => c.id)).Nodup)
    (c : ContainerInfo) (hc : c ∈ containers) :
    mapLookup (buildStatsMap (fetchResults containers fetch)) c.id =
      if c.running = true then fetch c else none := by
  rw [mapLookup_buildStatsMap _ (fetchResults_ids_nodup containers fetch hfid hnd)]
  exact find?_fetchResults containers fetch hfid hnd c hc

lemma emitOne_cases {m : Metric} {c : ContainerInfo} {st : Option ContainerStats} {now : Int}
    (hm : m ∈ emitOne c st now) :
    m = Metric.containerInfo c.id c.name c.image c.state ∨
    m = Metric.containerState c.id c.name (stateToCode c.state) ∨
    m = Metric.containerUptime c.id c.name (uptimeValue c now) ∨
    (∃ t, c.created = some t ∧ m = Metric.containerCreated c.id c.name t) ∨
    (∃ t, c.started = some t ∧ m = Metric.containerStarted c.id c.name t) ∨
    m = Metric.containerRestartCount c.id c.name c.restartCount ∨
    m = Metric.containerHealthStatus c.id c.name (healthToCode c.health) ∨
    m = Metric.containerExitCode c.id c.name c.exitCode ∨
    m = Metric.containerOOMKilled c.id c.name (if c.oomKilled then 1 else 0) ∨
    (∃ s, st = some s ∧
      (m = Metric.containerCPUPercent c.id c.name s.cpuPercent ∨
       m = Metric.containerCPUUsageSeconds c.id c.name ((s.cpuUsageTotal : ℚ) / 1000000000) ∨
       m = Metric.containerMemoryUsage c.id c.name s.memoryUsage ∨
       m = Metric.containerMemoryLimit c.id c.name s.memoryLimit ∨
       m = Metric.containerMemoryPercent c.id c.name s.memoryPercent ∨
       (∃ p ∈ s.networks,
         m = Metric.containerNetworkRxBytes c.id c.name p.1 p.2.rxBytes ∨
         m = Metric.containerNetworkTxBytes c.id c.name p.1 p.2.txBytes) ∨
       m = Metric.containerBlkioReadBytes c.id c.name s.blockRead ∨
       m = Metric.containerBlkioWriteBytes c.id c.name s.blockWrite)) := by
  rcases hcr : c.created with _ | t <;> rcases hst : c.started with _ | t2 <;>
    rcases st with _ | s <;>
    simp [emitOne, createdMetric, startedMetric, resourceMetrics, networkMetrics,
      hcr, hst] at hm ⊢ <;>
    tauto

lemma containerCreated_mem_emitOne {a b : String} {v : Int} {c : ContainerInfo}
    {st : Option ContainerStats} {now : Int}
    (hm : Metric.containerCreated a b v ∈ emitOne c st now) :
    a = c.id ∧ b = c.name ∧ c.created = some v := by
  rcases emitOne_cases hm with
    h | h | h | ⟨t, hct, h⟩ | ⟨t, hst2, h⟩ | h | h | h | h | ⟨s, hsts, h⟩
  any_goals exact Metric.noConfusion h
  · simp only [Metric.containerCreated.injEq] at h
    exact ⟨h.1, h.2.1, by rw [hct, h.2.2]⟩
  · rcases h with h | h | h | h | h | ⟨p, hp, h | h⟩ | h | h <;> exact Metric.noConfusion h

lemma containerStarted_mem_emitOne {a b : String} {v : Int} {c : ContainerInfo}
    {st : Option ContainerStats} {now : Int}
    (hm : Metric.containerStarted a b v ∈ emitOne c st now) :
    a = c.id ∧ b = c.name ∧ c.started = some v := by
  rcases emitOne_cases hm with
    h | h | h | ⟨t, hct, h⟩ | ⟨t, hst2, h⟩ | h | h | h | h | ⟨s, hsts, h⟩
  any_goals exact Metric.noConfusion h
  · simp only [Metric.containerStarted.injEq] at h
    exact ⟨h.1, h.2.1, by rw [hst2, h.2.2]⟩
  · rcases h with h | h | h | h | h | ⟨p, hp, h | h⟩ | h | h <;> exact Metric.noConfusion h

lemma resource_of_mem_emitOne {a : String} {m : Metric} {c : ContainerInfo}
    {st : Option ContainerStats} {now : Int}
    (hm : m ∈ emitOne c st now) (hr : isResourceFor a m = true) :
    a = c.id ∧ ∃ s, st = some s := by
  rcases emitOne_cases hm with
    h | h | h | ⟨t, hct, h⟩ | ⟨t, hst2, h⟩ | h | h | h | h | ⟨s, hsts, h⟩
  any_goals (subst h; simp [isResourceFor] at hr)
  refine ⟨?_, s, hsts⟩
  rcases h with h | h | h | h | h | ⟨p, hp, h | h⟩ | h | h <;>
    (subst h; simp only [isResourceFor, beq_iff_eq] at hr; exact hr.symm)

lemma countP_networkMetrics_cpu (c : ContainerInfo) (nets : List (String × NetworkStats))
    (a : String) : (networkMetrics c nets).countP (isCPUPercentFor a) = 0 := by
  rw [List.countP_eq_zero]
  intro m hm
  simp only [networkMetrics, List.mem_flatMap, List.mem_cons, List.not_mem_nil,
    or_false, List.mem_singleton] at hm
  obtain ⟨p, hp, h | h⟩ := hm <;> (subst h; simp [isCPUPercentFor])

lemma countP_cpu_emitOne (c : ContainerInfo) (st : Option ContainerStats) (now : Int)
    (a : String) :
    (emitOne c st now).countP (isCPUPercentFor a) =
      if st.isSome ∧ c.id = a then 1 else 0 := by
  rcases st with _ | s <;> rcases hcr : c.created with _ | t <;>
    rcases hst : c.started with _ | t2 <;>
    simp [emitOne, createdMetric, startedMetric, resourceMetrics, hcr, hst,
      List.countP_append, List.countP_cons, countP_networkMetrics_cpu,
      isCPUPercentFor, beq_iff_eq]

lemma mem_emitFrom_of_get (smap : List (String × ContainerStats)) (nows : Nat → Int)
    {m : Metric} : ∀ (cs : List ContainerInfo) (i j : Nat) (h : j < cs.length),
    m ∈ emitOne (cs.get ⟨j, h⟩) (mapLookup smap (cs.get ⟨j, h⟩).id) (nows (i + j)) →
    m ∈ emitFrom smap nows i cs := by
  intro cs
  induction cs with
  | nil => intro i j h; exact absurd h (by simp)
  | cons c rest ih =>
    intro i j h hm
    cases j with
    | zero =>
      rw [emitFrom]
      exact List.mem_append_left _ (by simpa using hm)
    | succ j2 =>
      rw [emitFrom]
      apply List.mem_append_right
      apply ih (i + 1) j2 (by simpa using Nat.lt_of_succ_lt_succ h)
      have heq : i + 1 + j2 = i + (j2 + 1) := by omega
      rw [heq]
      exact hm

lemma exists_get_of_mem_emitFrom (smap : List (String × ContainerStats)) (nows : Nat → Int)
    {m : Metric} : ∀ (cs : List ContainerInfo) (i : Nat),
    m ∈ emitFrom smap nows i cs →
    ∃ (j : Nat) (h : j < cs.length),
      m ∈ emitOne (cs.get ⟨j, h⟩) (mapLookup smap (cs.get ⟨j, h⟩).id) (nows (i + j)) := by
  intro cs
  induction cs with
  | nil => intro i hm; simp [emitFrom] at hm
  | cons c rest ih =>
    intro i hm
    rw [emitFrom] at hm
    rcases List.mem_append.mp hm with h1 | h2
    · exact ⟨0, by simp, by simpa using h1⟩
    · obtain ⟨j, hj, hmem⟩ := ih (i + 1) h2
      refine ⟨j + 1, by simpa using Nat.succ_lt_succ hj, ?_⟩
      have heq : i + (j + 1) = i + 1 + j := by omega
      rw [heq]
      simpa using hmem

lemma countP_cpu_emitFrom (smap : List (String × ContainerStats)) (nows : Nat → Int)
    (a : String) : ∀ (cs : List ContainerInfo) (i : Nat),
    (emitFrom smap nows i cs).countP (isCPUPercentFor a) =
      cs.countP (fun d => (mapLookup smap d.id).isSome && (d.id == a)) := by
  intro cs
  induction cs with
  | nil => intro i; rfl
  | cons c rest ih =>
    intro i
    rw [emitFrom, List.countP_append, countP_cpu_emitOne, List.countP_cons, ih (i + 1)]
    by_cases h1 : (mapLookup smap c.id).isSome <;> by_cases h2 : c.id = a <;>
      simp [h1, h2] <;> omega

lemma countP_unique_id (q : ContainerInfo → Bool) :
    ∀ (cs : List ContainerInfo), (cs.map (fun c => c.id)).Nodup →
    ∀ c ∈ cs, cs.countP (fun d => q d && (d.id == c.id)) = if q c then 1 else 0 := by
  intro cs
  induction cs with
  | nil => intro _ c hc; cases hc
  | cons d rest ih =>
    intro hnd c hc
    simp only [List.map_cons, List.nodup_cons, List.mem_map] at hnd
    obtain ⟨hdid, hnd2⟩ := hnd
    rcases List.mem_cons.mp hc with hcd | hcr
    · subst hcd
      rw [List.countP_cons]
      have hrest : rest.countP (fun d2 => q d2 && (d2.id == c.id)) = 0 := by
        rw [List.countP_eq_zero]
        intro e he hp
        simp only [Bool.and_eq_true, beq_iff_eq] at hp
        exact hdid ⟨e, he, hp.2⟩
      rw [hrest]
      by_cases hq : q c <;> simp [hq]
    · rw [List.countP_cons]
      have hd0 : (q d && (d.id == c.id)) = false := by
        have : d.id ≠ c.id := by
          intro heq
          exact hdid ⟨c, hcr, heq.symm⟩
        simp [this]
      rw [hd0, ih hnd2 c hcr]
      simp

lemma emitOne_unconditional (c : ContainerInfo) (st : Option ContainerStats) (now : Int) :
    Metric.containerInfo c.id c.name c.image c.state ∈ emitOne c st now ∧
    Metric.containerState c.id c.name (stateToCode c.state) ∈ emitOne c st now ∧
    Metric.containerUptime c.id c.name (uptimeValue c now) ∈ emitOne c st now ∧
    Metric.containerRestartCount c.id c.name c.restartCount ∈ emitOne c st now ∧
    Metric.containerHealthStatus c.id c.name (healthToCode c.health) ∈ emitOne c st now ∧
    Metric.containerExitCode c.id c.name c.exitCode ∈ emitOne c st now ∧
    Metric.containerOOMKilled c.id c.name (if c.oomKilled then 1 else 0) ∈ emitOne c st now := by
  refine ⟨?_, ?_, ?_, ?_, ?_, ?_, ?_⟩ <;> simp [emitOne]

lemma emitOne_resource_mem (c : ContainerInfo) (s : ContainerStats) (now : Int) :
    Metric.containerCPUPercent c.id c.name s.cpuPercent ∈ emitOne c (some s) now ∧
    Metric.containerCPUUsageSeconds c.id c.name ((s.cpuUsageTotal : ℚ) / 1000000000)
      ∈ emitOne c (some s) now ∧
    Metric.containerMemoryUsage c.id c.name s.memoryUsage ∈ emitOne c (some s) now ∧
    Metric.containerMemoryLimit c.id c.name s.memoryLimit ∈ emitOne c (some s) now ∧
    Metric.containerMemoryPercent c.id c.name s.memoryPercent ∈ emitOne c (some s) now ∧
    Metric.containerBlkioReadBytes c.id c.name s.blockRead ∈ emitOne c (some s) now ∧
    Metric.containerBlkioWriteBytes c.id c.name s.blockWrite ∈ emitOne c (some s) now := by
  refine ⟨?_, ?_, ?_, ?_, ?_, ?_, ?_⟩ <;> simp [emitOne, resourceMetrics]

lemma emitOne_created_mem {c : ContainerInfo} (st : Option ContainerStats) (now : Int)
    {t : Int} (h : c.created = some t) :
    Metric.containerCreated c.id c.name t ∈ emitOne c st now := by
  simp [emitOne, createdMetric, h]

lemma emitOne_started_mem {c : ContainerInfo} (st : Option ContainerStats) (now : Int)
    {t : Int} (h : c.started = some t) :
    Metric.containerStarted c.id c.name t ∈ emitOne c st now := by
  simp [emitOne, startedMetric, h]

lemma mem_collect_of_mem (containers : List ContainerInfo)
    (fetch : ContainerInfo → Option ContainerStats) (nows : Nat → Int)
    {c : ContainerInfo} (hc : c ∈ containers) {m : Metric}
    (hm : ∀ st now, m ∈ emitOne c st now) :
    m ∈ collectContainerMetrics (some containers) fetch nows := by
  obtain ⟨⟨j, hj⟩, hget⟩ := List.mem_iff_get.mp hc
  simp only [collectContainerMetrics]
  apply mem_emitFrom_of_get _ _ containers 0 j hj
  rw [hget]
  exact hm _ _

/-- C10: for every container whose Created (respectively Started) timestamp
is the zero time value, the container-created (respectively
container-started) timestamp metric is not emitted at all for that
container in that scrape, while the other unconditional per-container
metrics (info, state, uptime, restart count, health, exit code, oom) are
still emitted. -/
theorem zero_timestamp_omission (containers : List ContainerInfo)
    (fetch : ContainerInfo → Option ContainerStats) (nows : Nat → Int)
    (hnd : (containers.map (fun c => c.id)).Nodup) :
    ∀ c ∈ containers,
      (c.created = none → ∀ (b : String) (v : Int),
        Metric.containerCreated c.id b v ∉ collectContainerMetrics (some containers) fetch nows) ∧
      (c.started = none → ∀ (b : String) (v : Int),
        Metric.containerStarted c.id b v ∉ collectContainerMetrics (some containers) fetch nows) ∧
      (Metric.containerInfo c.id c.name c.image c.state
        ∈ collectContainerMetrics (some containers) fetch nows) ∧
      (Metric.containerState c.id c.name (stateToCode c.state)
        ∈ collectContainerMetrics (some containers) fetch nows) ∧
      (∃ v : Int, Metric.containerUptime c.id c.name v
        ∈ collectContainerMetrics (some containers) fetch nows) ∧
      (Metric.containerRestartCount c.id c.name c.restartCount
        ∈ collectContainerMetrics (some containers) fetch nows) ∧
      (Metric.containerHealthStatus c.id c.name (healthToCode c.health)
        ∈ collectContainerMetrics (some containers) fetch nows) ∧
      (Metric.containerExitCode c.id c.name c.exitCode
        ∈ collectContainerMetrics (some containers) fetch nows) ∧
      (Metric.containerOOMKilled c.id c.name (if c.oomKilled then 1 else 0)
        ∈ collectContainerMetrics (some containers) fetch nows) := by
  intro c hc
  refine ⟨?_, ?_, ?_, ?_, ?_, ?_, ?_, ?_, ?_⟩
  · intro hcr b v hmem
    simp only [collectContainerMetrics] at hmem
    obtain ⟨j, hj, hm⟩ := exists_get_of_mem_emitFrom _ _ containers 0 hmem
    obtain ⟨hid, _, hsome⟩ := containerCreated_mem_emitOne hm
    have hdmem : containers.get ⟨j, hj⟩ ∈ containers := List.get_mem containers j hj
    have hceq : c = containers.get ⟨j, hj⟩ :=
      List.inj_on_of_nodup_map hnd hc hdmem hid
    rw [← hceq] at hsome
    rw [hcr] at hsome
    cases hsome
  · intro hst b v hmem
    simp only [collectContainerMetrics] at hmem
    obtain ⟨j, hj, hm⟩ := exists_get_of_mem_emitFrom _ _ containers 0 hmem
    obtain ⟨hid, _, hsome⟩ := containerStarted_mem_emitOne hm
    have hdmem : containers.get ⟨j, hj⟩ ∈ containers := List.get_mem containers j hj
    have hceq : c = containers.get ⟨j, hj⟩ :=
      List.inj_on_of_nodup_map hnd hc hdmem hid
    rw [← hceq] at hsome
    rw [hst] at hsome
    cases hsome
  · exact mem_collect_of_mem containers fetch nows hc (fun st now => (emitOne_unconditional c st now).1)
  · exact mem_collect_of_mem containers fetch nows hc (fun st now => (emitOne_unconditional c st now).2.1)
  · obtain ⟨⟨j, hj⟩, hget⟩ := List.mem_iff_get.mp hc
    refine ⟨uptimeValue c (nows j), ?_⟩
    simp only [collectContainerMetrics]
    apply mem_emitFrom_of_get _ _ containers 0 j hj
    rw [hget]
    have h0 : (0 : Nat) + j = j := by omega
    rw [h0]
    exact (emitOne_unconditional c _ (nows j)).2.2.1
  · exact mem_collect_of_mem containers fetch nows hc (fun st now => (emitOne_unconditional c st now).2.2.2.1)
  · exact mem_collect_of_mem containers fetch nows hc (fun st now => (emitOne_unconditional c st now).2.2.2.2.1)
  · exact mem_collect_of_mem containers fetch nows hc (fun st now => (emitOne_unconditional c st now).2.2.2.2.2.1)
  · exact mem_collect_of_mem containers fetch nows hc (fun st now => (emitOne_unconditional c st now).2.2.2.2.2.2)

/-- C9: within one scrape, with container ids unique within the scrape, at
most one ResourceSample is associated with each ContainerSnapshot (the
CPU-percent series for a container id is emitted exactly once when its
fetch succeeded and zero times otherwise), and the absence of a sample
results in the container's resource metrics being omitted entirely rather
than emitted with value zero. -/
theorem resource_sample_unique_or_absent (containers : List ContainerInfo)
    (fetch : ContainerInfo → Option ContainerStats) (nows : Nat → Int)
    (hnd : (containers.map (fun c => c.id)).Nodup)
    (hfid : ∀ c s, fetch c = some s → s.id = c.id) :
    ∀ c ∈ containers,
      ((collectContainerMetrics (some containers) fetch nows).countP (isCPUPercentFor c.id) =
        if c.running = true ∧ (fetch c).isSome then 1 else 0) ∧
      (¬(c.running = true ∧ (fetch c).isSome) →
        ∀ m ∈ collectContainerMetrics (some containers) fetch nows,
          isResourceFor c.id m = false) := by
  intro c hc
  have hlook := lookup_stats containers fetch hfid hnd c hc
  constructor
  · simp only [collectContainerMetrics]
    rw [countP_cpu_emitFrom _ _ _ containers 0]
    rw [countP_unique_id (fun d => (mapLookup (buildStatsMap (fetchResults containers fetch)) d.id).isSome) containers hnd c hc]
    rw [hlook]
    by_cases hr : c.running = true
    · cases hf : fetch c <;> simp [hr, hf]
    · simp [hr]
  · intro habs m hm
    by_contra hres
    have hres2 : isResourceFor c.id m = true := by
      cases h : isResourceFor c.id m
      · exact absurd h hres
      · rfl
    simp only [collectContainerMetrics] at hm
    obtain ⟨j, hj, hmo⟩ := exists_get_of_mem_emitFrom _ _ containers 0 hm
    obtain ⟨hid, s, hsome⟩ := resource_of_mem_emitOne hmo hres2
    have hdmem : containers.get ⟨j, hj⟩ ∈ containers := List.get_mem containers j hj
    have hceq : c = containers.get ⟨j, hj⟩ :=
      List.inj_on_of_nodup_map hnd hc hdmem hid
    rw [← hceq, hlook] at hsome
    apply habs
    by_cases hr : c.running = true
    · rw [if_pos hr] at hsome
      exact ⟨hr, by rw [hsome]; rfl⟩
    · rw [if_neg hr] at hsome
      cases hsome

/-- C2 (amended): for every scrape and every container in the listing, the
identity/lifecycle/health/restart/exit-code/oom and uptime metrics are
emitted unconditionally, the created/started timestamp metrics are emitted
whenever the corresponding timestamp is nonzero, and CPU/memory/network/
block-IO metrics are emitted exactly for containers whose stats fetch
produced a sample; one container's failed fetch does not suppress any
other container's metrics (each conjunct holds per container regardless of
the other containers' fetch outcomes). -/
theorem per_container_emission (containers : List ContainerInfo)
    (fetch : ContainerInfo → Option ContainerStats) (nows : Nat → Int)
    (hnd : (containers.map (fun c => c.id)).Nodup)
    (hfid : ∀ c s, fetch c = some s → s.id = c.id) :
    ∀ c ∈ containers,
      (Metric.containerInfo c.id c.name c.image c.state
        ∈ collectContainerMetrics (some containers) fetch nows) ∧
      (Metric.containerState c.id c.name (stateToCode c.state)
        ∈ collectContainerMetrics (some containers) fetch nows) ∧
      (∃ v : Int, Metric.containerUptime c.id c.name v
        ∈ collectContainerMetrics (some containers) fetch nows) ∧
      (Metric.containerRestartCount c.id c.name c.restartCount
        ∈ collectContainerMetrics (some containers) fetch nows) ∧
      (Metric.containerHealthStatus c.id c.name (healthToCode c.health)
        ∈ collectContainerMetrics (some containers) fetch nows) ∧
      (Metric.containerExitCode c.id c.name c.exitCode
        ∈ collectContainerMetrics (some containers) fetch nows) ∧
      (Metric.containerOOMKilled c.id c.name (if c.oomKilled then 1 else 0)
        ∈ collectContainerMetrics (some containers) fetch nows) ∧
      (∀ t : Int, c.created = some t →
        Metric.containerCreated c.id c.name t
          ∈ collectContainerMetrics (some containers) fetch nows) ∧
      (∀ t : Int, c.started = some t →
        Metric.containerStarted c.id c.name t
          ∈ collectContainerMetrics (some containers) fetch nows) ∧
      (∀ s : ContainerStats, c.running = true → fetch c = some s →
        Metric.containerCPUPercent c.id c.name s.cpuPercent
          ∈ collectContainerMetrics (some containers) fetch nows ∧
        Metric.containerCPUUsageSeconds c.id c.name ((s.cpuUsageTotal : ℚ) / 1000000000)
          ∈ collectContainerMetrics (some containers) fetch nows ∧
        Metric.containerMemoryUsage c.id c.name s.memoryUsage
          ∈ collectContainerMetrics (some containers) fetch nows ∧
        Metric.containerMemoryLimit c.id c.name s.memoryLimit
          ∈ collectContainerMetrics (some containers) fetch nows ∧
        Metric.containerMemoryPercent c.id c.name s.memoryPercent
          ∈ collectContainerMetrics (some containers) fetch nows ∧
        Metric.containerBlkioReadBytes c.id c.name s.blockRead
          ∈ collectContainerMetrics (some containers) fetch nows ∧
        Metric.containerBlkioWriteBytes c.id c.name s.blockWrite
          ∈ collectContainerMetrics (some containers) fetch nows) ∧
      ((c.running = false ∨ fetch c = none) →
        ∀ m ∈ collectContainerMetrics (some containers) fetch nows,
          isResourceFor c.id m = false) := by
  intro c hc
  have hlook := lookup_stats containers fetch hfid hnd c hc
  refine ⟨?_, ?_, ?_, ?_, ?_, ?_, ?_, ?_, ?_, ?_, ?_⟩
  · exact mem_collect_of_mem containers fetch nows hc (fun st now => (emitOne_unconditional c st now).1)
  · exact mem_collect_of_mem containers fetch nows hc (fun st now => (emitOne_unconditional c st now).2.1)
  · obtain ⟨⟨j, hj⟩, hget⟩ := List.mem_iff_get.mp hc
    refine ⟨uptimeValue c (nows j), ?_⟩
    simp only [collectContainerMetrics]
    apply mem_emitFrom_of_get _ _ containers 0 j hj
    rw [hget]
    have h0 : (0 : Nat) + j = j := by omega
    rw [h0]
    exact (emitOne_unconditional c _ (nows j)).2.2.1
  · exact mem_collect_of_mem containers fetch nows hc (fun st now => (emitOne_unconditional c st now).2.2.2.1)
  · exact mem_collect_of_mem containers fetch nows hc (fun st now => (emitOne_unconditional c st now).2.2.2.2.1)
  · exact mem_collect_of_mem containers fetch nows hc (fun st now => (emitOne_unconditional c st now).2.2.2.2.2.1)
  · exact mem_collect_of_mem containers fetch nows hc (fun st now => (emitOne_unconditional c st now).2.2.2.2.2.2)
  · intro t ht
    exact mem_collect_of_mem containers fetch nows hc (fun st now => emitOne_created_mem st now ht)
  · intro t ht
    exact mem_collect_of_mem containers fetch nows hc (fun st now => emitOne_started_mem st now ht)
  · intro s hrun hf
    have hlook2 : mapLookup (buildStatsMap (fetchResults containers fetch)) c.id = some s := by
      rw [hlook, if_pos hrun, hf]
    obtain ⟨⟨j, hj⟩, hget⟩ := List.mem_iff_get.mp hc
    have hmem : ∀ {m : Metric}, (∀ now, m ∈ emitOne c (some s) now) →
        m ∈ collectContainerMetrics (some containers) fetch nows := by
      intro m hm
      simp only [collectContainerMetrics]
      apply mem_emitFrom_of_get _ _ containers 0 j hj
      rw [hget, hlook2]
      exact hm _
    exact ⟨hmem (fun now => (emitOne_resource_mem c s now).1),
      hmem (fun now => (emitOne_resource_mem c s now).2.1),
      hmem (fun now => (emitOne_resource_mem c s now).2.2.1),
      hmem (fun now => (emitOne_resource_mem c s now).2.2.2.1),
      hmem (fun now => (emitOne_resource_mem c s now).2.2.2.2.1),
      hmem (fun now => (emitOne_resource_mem c s now).2.2.2.2.2.1),
      hmem (fun now => (emitOne_resource_mem c s now).2.2.2.2.2.2)⟩
  · intro habs m hm
    by_contra hres
    have hres2 : isResourceFor c.id m = true := by
      cases h : isResourceFor c.id m
      · exact absurd h hres
      · rfl
    simp only [collectContainerMetrics] at hm
    obtain ⟨j, hj, hmo⟩ := exists_get_of_mem_emitFrom _ _ containers 0 hm
    obtain ⟨hid, s, hsome⟩ := resource_of_mem_emitOne hmo hres2
    have hdmem : containers.get ⟨j, hj⟩ ∈ containers := List.get_mem containers j hj
    have hceq : c = containers.get ⟨j, hj⟩ :=
      List.inj_on_of_nodup_map hnd hc hdmem hid
    rw [← hceq, hlook] at hsome
    rcases habs with hr | hf
    · rw [hr] at hsome
      simp at hsome
    · by_cases hr : c.running = true
      · rw [if_pos hr, hf] at hsome
        cases hsome
      · rw [if_neg hr] at hsome
        cases hsome

/-- C4 (amended): every container's uptime metric is emitted with value
`now - startedAt` in seconds when running with a known startedAt and 0
otherwise, where `now` is the clock instant of that container's own
emission-time `time.Since` call (`nows j` for the j-th container), not a
shared scrape-start instant; the value is negative when startedAt lies in
the future of that instant. -/
theorem uptime_emission (containers : List ContainerInfo)
    (fetch : ContainerInfo → Option ContainerStats) (nows : Nat → Int) :
    ∀ (j : Nat) (h : j < containers.length),
      (Metric.containerUptime (containers.get ⟨j, h⟩).id (containers.get ⟨j, h⟩).name
          (uptimeValue (containers.get ⟨j, h⟩) (nows j))
        ∈ collectContainerMetrics (some containers) fetch nows) ∧
      ((containers.get ⟨j, h⟩).running = true →
        ∀ t : Int, (containers.get ⟨j, h⟩).started = some t →
          uptimeValue (containers.get ⟨j, h⟩) (nows j) = nows j - t) ∧
      (((containers.get ⟨j, h⟩).running = false ∨ (containers.get ⟨j, h⟩).started = none) →
        uptimeValue (containers.get ⟨j, h⟩) (nows j) = 0) := by
  intro j h
  set c := containers.get ⟨j, h⟩ with hc
  refine ⟨?_, ?_, ?_⟩
  · simp only [collectContainerMetrics]
    apply mem_emitFrom_of_get _ _ containers 0 j h
    have h0 : (0 : Nat) + j = j := by omega
    rw [h0, ← hc]
    exact (emitOne_unconditional _ _ _).2.2.1
  · intro hr t ht
    rw [uptimeValue, hr, ht]
    rfl
  · intro hd
    rcases hd with hr | hst
    · rw [uptimeValue, hr]
      rfl
    · rw [uptimeValue, hst]
      split <;> rfl

/-- C1 (amended): if ListContainers fails, no container-scoped metric is
emitted and no exception propagates (Collect still returns a metric list,
always containing the build-info and scrape-duration metrics); the engine
metrics are still emitted when the independent engine lookup succeeds, and
when it fails too the output is exactly the build-info and scrape-duration
pair. -/
theorem collect_listing_failure (version goVersion : String)
    (fetch : ContainerInfo → Option ContainerStats) (nows : Nat → Int)
    (engine : Option EngineInfo) (duration : ℚ) :
    Metric.buildInfo version goVersion
      ∈ Collect version goVersion none fetch nows engine duration ∧
    Metric.scrapeDuration duration
      ∈ Collect version goVersion none fetch nows engine duration ∧
    (∀ m ∈ Collect version goVersion none fetch nows engine duration,
      isContainerScoped m = false) ∧
    (Collect version goVersion none fetch nows engine duration =
      Metric.buildInfo version goVersion ::
        (collectEngineMetrics engine ++ [Metric.scrapeDuration duration])) ∧
    (engine = none → Collect version goVersion none fetch nows engine duration =
      [Metric.buildInfo version goVersion, Metric.scrapeDuration duration]) := by
  refine ⟨?_, ?_, ?_, ?_, ?_⟩
  · simp [Collect]
  · simp [Collect, collectContainerMetrics]
  · intro m hm
    rcases engine with _ | info
    · simp [Collect, collectContainerMetrics, collectEngineMetrics] at hm
      rcases hm with h | h <;> (subst h; rfl)
    · simp [Collect, collectContainerMetrics, collectEngineMetrics] at hm
      rcases hm with h | h | h | h | h | h | h <;> (subst h; rfl)
  · simp [Collect, collectContainerMetrics]
  · intro he
    subst he
    simp [Collect, collectContainerMetrics, collectEngineMetrics]

/-- C1 counterexample: with ListContainers failing but the engine lookup
succeeding, the scrape emits an engine-info metric, which is neither the
build-info nor the scrape-duration metric — contradicting "zero metrics
beyond the fixed build-info and scrape-duration metrics". -/
theorem collect_listing_failure_counterexample :
    Metric.engineInfo "24.0" "linux" "amd64" "6.1"
      ∈ Collect "v1" "go1" none (fun _ => none) (fun _ => 0) (some engineEx) 0 ∧
    isBuildInfo (Metric.engineInfo "24.0" "linux" "amd64" "6.1") = false ∧
    isScrapeDuration (Metric.engineInfo "24.0" "linux" "amd64" "6.1") = false := by
  decide

/-- Witness for C1, applied at a concrete failing scrape. -/
theorem collect_listing_failure_witness :
    isContainerScoped (Metric.buildInfo "v" "go") = false := by
  have h := collect_listing_failure "v" "go" (fun _ => none) (fun _ => 0) none 0
  exact h.2.2.1 (Metric.buildInfo "v" "go") (by decide)

/-- C2 counterexample: a listed container whose Created timestamp is the
zero value gets no created-timestamp metric at all, so the timestamp
metrics are not emitted unconditionally for every listed container. -/
theorem per_container_emission_counterexample :
    contNoCreated.created = none ∧
    contNoCreated ∈ [contNoCreated] ∧
    Metric.containerInfo "cA" "nA" "img" "running" ∈ outNoTs ∧
    outNoTs.filter isCreatedMetric = [] := by
  decide

/-- Witness for C2 at the spec's three-container scenario: one of three
running containers' fetch fails; identity metrics appear for all three and
CPU metrics for exactly the two that succeeded. -/
theorem per_container_emission_witness :
    Metric.containerInfo "c2" "n2" "img" "running" ∈ outEx3 ∧
    Metric.containerCPUPercent "c1" "n1" 5 ∈ outEx3 ∧
    Metric.containerCPUPercent "c3" "n3" 5 ∈ outEx3 ∧
    (∀ m ∈ outEx3, isResourceFor "c2" m = false) := by
  have hfid : ∀ c s, fetchEx3 c = some s → s.id = c.id := by
    intro c s h
    simp only [fetchEx3] at h
    split at h
    · cases h
    · cases h
      rfl
  have hnd : (containersEx3.map (fun c => c.id)).Nodup := by decide
  have h1 := per_container_emission containersEx3 fetchEx3 (fun _ => 0) hnd hfid
    (runningCont "c1" "n1") (by decide)
  have h2 := per_container_emission containersEx3 fetchEx3 (fun _ => 0) hnd hfid
    (runningCont "c2" "n2") (by decide)
  have h3 := per_container_emission containersEx3 fetchEx3 (fun _ => 0) hnd hfid
    (runningCont "c3" "n3") (by decide)
  refine ⟨h2.1, ?_, ?_, ?_⟩
  · exact (h1.2.2.2.2.2.2.2.2.2.1 (statsFor "c1" "n1") rfl (by decide)).1
  · exact (h3.2.2.2.2.2.2.2.2.2.1 (statsFor "c3" "n3") rfl (by decide)).1
  · exact h2.2.2.2.2.2.2.2.2.2.2 (Or.inr (by decide))

/-- Witness for C9 at the three-container scenario: the succeeding
container has exactly one CPU-percent series, the failing one has none. -/
theorem resource_sample_unique_or_absent_witness :
    outEx3.countP (isCPUPercentFor "c1") = 1 ∧
    outEx3.countP (isCPUPercentFor "c2") = 0 := by
  have hfid : ∀ c s, fetchEx3 c = some s → s.id = c.id := by
    intro c s h
    simp only [fetchEx3] at h
    split at h
    · cases h
    · cases h
      rfl
  have hnd : (containersEx3.map (fun c => c.id)).Nodup := by decide
  have h1 := resource_sample_unique_or_absent containersEx3 fetchEx3 (fun _ => 0) hnd hfid
    (runningCont "c1" "n1") (by decide)
  have h2 := resource_sample_unique_or_absent containersEx3 fetchEx3 (fun _ => 0) hnd hfid
    (runningCont "c2" "n2") (by decide)
  exact ⟨h1.1.trans (by decide), h2.1.trans (by decide)⟩

/-- Witness for C10 at a container with zero Created/Started times. -/
theorem zero_timestamp_omission_witness :
    Metric.containerCreated "cA" "nA" 0 ∉ outNoTs ∧
    Metric.containerStarted "cA" "nA" 0 ∉ outNoTs ∧
    Metric.containerInfo "cA" "nA" "img" "running" ∈ outNoTs := by
  have h := zero_timestamp_omission [contNoCreated] (fun _ => none) (fun _ => 0)
    (by decide) contNoCreated (by decide)
  exact ⟨h.1 rfl "nA" 0, h.2.1 rfl "nA" 0, h.2.2.1⟩

/-- C4 counterexample: a running container with StartedAt = 100 scraped at
clock instant 50 gets an uptime metric of -50, contradicting "the value is
never negative" (and hence the claim as stated). -/
theorem uptime_negative_counterexample :
    Metric.containerUptime "c9" "n9" (-50) ∈ outLate ∧ (-50 : Int) < 0 := by
  decide

/-- Witness for C4 (amended) at the concrete late-start container. -/
theorem uptime_emission_witness :
    Metric.containerUptime "c9" "n9" (uptimeValue contLate 50) ∈ outLate ∧
    uptimeValue contLate 50 = 50 - 100 := by
  have h := uptime_emission [contLate] (fun _ => none) (fun _ => 50) 0 (by decide)
  exact ⟨h.1, h.2.1 rfl 100 rfl⟩

/-- Witness for C8 at a concrete three-id listing with one failing
inspect. -/
theorem listContainers_drops_failed_inspect_witness :
    ListContainers (some ["a", "bad", "b"]) inspectEx =
      some [runningCont "a" "a", runningCont "b" "b"] ∧
    runningCont "a" "a" ∈ (["a", "bad", "b"].filterMap inspectEx) := by
  have h := listContainers_drops_failed_inspect ["a", "bad", "b"] inspectEx
  refine ⟨h.1.trans (by decide), ?_⟩
  exact (h.2 (runningCont "a" "a")).mpr ⟨"a", by decide, by decide⟩

end DockerExporter
